import Mathlib

/-!
Shallow embedding of the certificate-bound challenge-response authentication
core of the natsable repository (the middleware module: in-memory session and
challenge stores, `createChallenge`, `verifySignature`, `createSession`,
`getSession`, `deleteSession`), together with theorems settling the spec
claims about it.

Modelling conventions:
* Node `Date.now()` timestamps are natural numbers (epoch milliseconds),
  passed explicitly where the source calls `Date.now()`.
* The random tokens produced by `randomBytes(..)` are passed explicitly as
  `fresh...` arguments.
* The `node:crypto` primitives (`X509Certificate` parsing, `cert.verify`,
  signature verification) and the CA file read are an environment record of
  oracles; a throwing operation is `Except String` carrying the thrown
  message, which the surrounding `try/catch` of the source turns into the
  `error` field of the result.
* The JS `Map` stores are functions `String -> Option _`.
* String manipulation that the source performs itself (the PEM regex match,
  `subject.split`, `trim`, lenient base64 decoding by `Buffer.from`) is
  implemented structurally on `List Char` so that concrete runs reduce.
-/

deriving instance DecidableEq for Except

namespace Natsable

/-- Session record stored in the in-memory session store. -/
structure Session where
  id : String
  keyFingerprint : String
  username : Option String
  createdAt : Nat
  expiresAt : Nat
deriving DecidableEq

/-- Challenge record stored in the in-memory challenge store. -/
structure Challenge where
  challenge : String
  certFingerprint : String
  createdAt : Nat
  expiresAt : Nat
deriving DecidableEq

/-- An in-memory `Map<string, T>` store, as a lookup function. -/
def Store (α : Type) : Type := String → Option α

/-- Empty store. -/
def Store.empty {α : Type} : Store α := fun _ => none

/-- `map.set(k, v)`. -/
def Store.set {α : Type} (m : Store α) (k : String) (v : α) : Store α :=
  fun k2 => if k2 = k then some v else m k2

/-- `map.delete(k)`. -/
def Store.delete {α : Type} (m : Store α) (k : String) : Store α :=
  fun k2 => if k2 = k then none else m k2

/-- Session expiry time: 24 hours, in milliseconds. -/
def SESSION_EXPIRY : Nat := 24 * 60 * 60 * 1000

/-- Challenge expiry time: 60 seconds, in milliseconds. -/
def CHALLENGE_EXPIRY : Nat := 60 * 1000

/-- Abstract view of a parsed `X509Certificate`: exactly the fields the
middleware reads. Validity bounds are epoch milliseconds; `validFrom` is the
notBefore bound and `validTo` the notAfter bound. -/
structure X509Cert where
  subject : String
  fingerprint256 : String
  publicKey : String
  validFrom : Nat
  validTo : Nat
deriving DecidableEq

/-- Environment of external crypto and filesystem operations used by the
middleware. `parseX509` is the `X509Certificate` constructor (error = thrown
message), `certVerify c k` is `c.verify(k)`, `sigVerify pk data sig` is the
SHA256 `createVerify` check of `sig` over `data` with public key `pk`,
and `readCa` is the `readFile` of the ca.crt file in the certs directory. -/
structure CryptoEnv where
  parseX509 : String → Except String X509Cert
  certVerify : X509Cert → String → Bool
  sigVerify : String → String → List Nat → Bool
  readCa : Except String String

/-- Whether `p` is an initial segment of `l`. -/
def hasPfx : List Char → List Char → Bool
  | [], _ => true
  | _ :: _, [] => false
  | p :: ps, c :: cs => p = c && hasPfx ps cs

/-- First occurrence of the pattern `p` in a character list: returns the
text before the match and the text after the match. -/
def findSub (p : List Char) : List Char → Option (List Char × List Char)
  | [] => if p = [] then some ([], []) else none
  | c :: cs =>
    if hasPfx p (c :: cs) then some ([], List.drop p.length (c :: cs))
    else
      match findSub p cs with
      | some (pre, post) => some (c :: pre, post)
      | none => none

/-- Marker opening an X.509 certificate block in a PEM file. -/
def pemBegin : List Char := "-----BEGIN CERTIFICATE-----".data

/-- Marker closing an X.509 certificate block in a PEM file. -/
def pemEnd : List Char := "-----END CERTIFICATE-----".data

/-- The regex match
`pemContent.match(/-----BEGIN CERTIFICATE-----[\s\S]*?-----END CERTIFICATE-----/)`:
the first opening marker, a lazy body, and the first closing marker after it. -/
def parseCertFromPem (pemContent : String) : Option String :=
  match findSub pemBegin pemContent.data with
  | none => none
  | some (_, afterBegin) =>
    match findSub pemEnd afterBegin with
    | none => none
    | some (body, _) => some (String.mk (pemBegin ++ body ++ pemEnd))

/-- JS `str.split(sep)` for a one-character separator. -/
def splitOnChar (sep : Char) : List Char → List (List Char)
  | [] => [[]]
  | c :: cs =>
    let r := splitOnChar sep cs
    if c = sep then [] :: r
    else
      match r with
      | [] => [[c]]
      | h :: t => (c :: h) :: t

/-- JS `parts.join(sep)` for a one-character separator. -/
def joinChar (sep : Char) : List (List Char) → List Char
  | [] => []
  | [x] => x
  | x :: y :: xs => x ++ sep :: joinChar sep (y :: xs)

/-- JS `str.trim()`: strip surrounding whitespace. -/
def trimChars (l : List Char) : List Char :=
  ((l.dropWhile Char.isWhitespace).reverse.dropWhile Char.isWhitespace).reverse

/-- One pass of `extractUsername`: the first subject line whose key (before
the first equals sign, trimmed) equals `key`, yielding the rest of the line
rejoined on equals signs and trimmed. -/
def subjectField (key : String) (lines : List (List Char)) : Option String :=
  lines.findSome? fun line =>
    match splitOnChar '=' line with
    | [] => none
    | k :: valueParts =>
      if String.mk (trimChars k) = key then
        some (String.mk (trimChars (joinChar '=' valueParts)))
      else none

/-- Extract a username from the certificate subject: the `CN` attribute,
falling back to `emailAddress`, else null. -/
def extractUsername (cert : X509Cert) : Option String :=
  let lines := splitOnChar '\n' cert.subject.data
  match subjectField "CN" lines with
  | some v => some v
  | none => subjectField "emailAddress" lines

/-- Value of a base64 alphabet character, none for any other character. -/
def b64Val (c : Char) : Option Nat :=
  if 'A' ≤ c ∧ c ≤ 'Z' then some (c.toNat - 'A'.toNat)
  else if 'a' ≤ c ∧ c ≤ 'z' then some (c.toNat - 'a'.toNat + 26)
  else if '0' ≤ c ∧ c ≤ '9' then some (c.toNat - '0'.toNat + 52)
  else if c = '+' then some 62
  else if c = '/' then some 63
  else none

/-- Bytes contributed by one base64 group of up to four sextet values. -/
def b64GroupBytes : List Nat → List Nat
  | [a, b, c, d] => [a * 4 + b / 16, b % 16 * 16 + c / 4, c % 4 * 64 + d]
  | [a, b, c] => [a * 4 + b / 16, b % 16 * 16 + c / 4]
  | [a, b] => [a * 4 + b / 16]
  | _ => []

/-- Decode a list of sextet values four at a time. -/
def b64DecodeVals : List Nat → List Nat
  | a :: b :: c :: d :: rest => b64GroupBytes [a, b, c, d] ++ b64DecodeVals rest
  | rest => b64GroupBytes rest

/-- Node base64 `Buffer.from` decoding: a total, lenient decoder that ignores
characters outside the base64 alphabet and never throws. -/
def base64DecodeLenient (s : String) : List Nat :=
  b64DecodeVals (s.data.filterMap b64Val)

/-- Whether `c` belongs to the base64 alphabet. -/
def isB64Char (c : Char) : Bool := (b64Val c).isSome

/-- Well-formed base64 text in the sense of the specification: a string of
alphabet characters whose length is a multiple of four, with at most two
closing padding characters. -/
def isWellFormedBase64 (s : String) : Bool :=
  s.length % 4 = 0 &&
    (let body := s.data.takeWhile isB64Char
     let rest := s.data.drop body.length
     decide (rest.length ≤ 2) && rest.all (fun c => c = '='))

/-- Result shape of `createChallenge`. -/
structure ChallengeResult where
  valid : Bool
  error : Option String := none
  challengeId : Option String := none
  challenge : Option String := none
  fingerprint : Option String := none
  username : Option (Option String) := none
  validTo : Option Nat := none
deriving DecidableEq

/-- Result shape of `verifySignature`. -/
structure VerifySignatureResult where
  valid : Bool
  error : Option String := none
  fingerprint : Option String := none
  username : Option (Option String) := none
  validTo : Option Nat := none
deriving DecidableEq

/-- `createChallenge(certPem, certsDir)` from the middleware: validate the
presented certificate against the CA and its notAfter bound, then store a
fresh challenge bound to the certificate fingerprint. `now` is `Date.now()`;
`freshChallengeId` and `freshNonce` are the two `randomBytes` draws. -/
def createChallenge (env : CryptoEnv) (now : Nat) (freshChallengeId freshNonce : String)
    (certPem : String) (st : Store Challenge) : ChallengeResult × Store Challenge :=
  match parseCertFromPem certPem with
  | none => ({ valid := false, error := some "No certificate found in file" }, st)
  | some certContent =>
    match env.parseX509 certContent with
    | .error msg => ({ valid := false, error := some msg }, st)
    | .ok cert =>
      match env.readCa with
      | .error msg => ({ valid := false, error := some msg }, st)
      | .ok caCertPem =>
        match env.parseX509 caCertPem with
        | .error msg => ({ valid := false, error := some msg }, st)
        | .ok caCert =>
          if !(env.certVerify cert caCert.publicKey) then
            ({ valid := false, error := some "Certificate not signed by CA" }, st)
          else if now > cert.validTo then
            ({ valid := false, error := some "Certificate has expired" }, st)
          else
            let fingerprint := cert.fingerprint256
            ({ valid := true
               challengeId := some freshChallengeId
               challenge := some freshNonce
               fingerprint := some fingerprint
               username := some (extractUsername cert)
               validTo := some cert.validTo },
             st.set freshChallengeId
               { challenge := freshNonce
                 certFingerprint := fingerprint
                 createdAt := now
                 expiresAt := now + CHALLENGE_EXPIRY })

/-- `verifySignature(challengeId, signature, certPem, certsDir)` from the
middleware: fetch the challenge (lazily expiring it), re-parse the submitted
certificate, compare fingerprints, re-verify the CA signature, check the
submitted signature over the stored nonce, and delete the challenge on
success. -/
def verifySignature (env : CryptoEnv) (now : Nat) (challengeId signature certPem : String)
    (st : Store Challenge) : VerifySignatureResult × Store Challenge :=
  match st challengeId with
  | none => ({ valid := false, error := some "Challenge not found or expired" }, st)
  | some storedChallenge =>
    if now > storedChallenge.expiresAt then
      ({ valid := false, error := some "Challenge expired" }, st.delete challengeId)
    else
      match parseCertFromPem certPem with
      | none => ({ valid := false, error := some "No certificate found" }, st)
      | some certContent =>
        match env.parseX509 certContent with
        | .error msg => ({ valid := false, error := some msg }, st)
        | .ok cert =>
          if cert.fingerprint256 ≠ storedChallenge.certFingerprint then
            ({ valid := false, error := some "Certificate mismatch" }, st)
          else
            match env.readCa with
            | .error msg => ({ valid := false, error := some msg }, st)
            | .ok caCertPem =>
              match env.parseX509 caCertPem with
              | .error msg => ({ valid := false, error := some msg }, st)
              | .ok caCert =>
                if !(env.certVerify cert caCert.publicKey) then
                  ({ valid := false, error := some "Certificate not signed by CA" }, st)
                else
                  let signatureBuffer := base64DecodeLenient signature
                  if !(env.sigVerify cert.publicKey storedChallenge.challenge signatureBuffer) then
                    ({ valid := false, error := some "Invalid signature" }, st)
                  else
                    ({ valid := true
                       fingerprint := some cert.fingerprint256
                       username := some (extractUsername cert)
                       validTo := some cert.validTo },
                     st.delete challengeId)

/-- `createSession(keyFingerprint, username)`: store a fresh session with a
24-hour expiry and return its id. `freshSessionId` is the `randomBytes`
draw. -/
def createSession (now : Nat) (freshSessionId keyFingerprint : String)
    (username : Option String) (st : Store Session) : String × Store Session :=
  (freshSessionId,
   st.set freshSessionId
     { id := freshSessionId
       keyFingerprint := keyFingerprint
       username := username
       createdAt := now
       expiresAt := now + SESSION_EXPIRY })

/-- `getSession(sessionId)`: look the session up, lazily deleting and hiding
it when its expiry has passed. -/
def getSession (now : Nat) (sessionId : String) (st : Store Session) :
    Option Session × Store Session :=
  match st sessionId with
  | none => (none, st)
  | some session =>
    if now > session.expiresAt then (none, st.delete sessionId)
    else (some session, st)

/-- `deleteSession(sessionId)`. -/
def deleteSession (sessionId : String) (st : Store Session) : Store Session :=
  st.delete sessionId

/-- Modelled from the spec: the login-completion orchestration step of the
protocol state machine (section 4.5, transition 2(e)) that invokes the
Session Ledger issue operation exactly when `verifySignature` succeeds. The
route handler performing this call is not among the source files; only its
middleware callees are. -/
def loginStep (env : CryptoEnv) (now : Nat) (freshSessionId challengeId signature certPem : String)
    (cst : Store Challenge) (sst : Store Session) :
    VerifySignatureResult × Store Challenge × Store Session :=
  let r := verifySignature env now challengeId signature certPem cst
  if r.1.valid then
    (r.1, r.2,
     (createSession now freshSessionId (r.1.fingerprint.getD "") (r.1.username.getD none) sst).2)
  else
    (r.1, r.2, sst)

/-! Concrete demonstration values used by the witness and counterexample
theorems: a CA-signed certificate for alice, a second certificate with a
different fingerprint, a not-yet-valid certificate, a CA certificate, the
PEM text carrying them, environments pinning the oracles, and stores holding
one live challenge and two live sessions. -/

/-- A trusted, temporally valid client certificate. -/
def demoCert : X509Cert :=
  { subject := "CN=alice@example.com\nO=Org"
    fingerprint256 := "FP1"
    publicKey := "PK1"
    validFrom := 0
    validTo := 4102444800000 }

/-- A second valid certificate whose fingerprint differs from `demoCert`. -/
def demoCertB : X509Cert :=
  { subject := "CN=mallory@example.com"
    fingerprint256 := "FP2"
    publicKey := "PK2"
    validFrom := 0
    validTo := 4102444800000 }

/-- A certificate whose notBefore bound lies in the future. -/
def demoCertLate : X509Cert :=
  { subject := "CN=bob@example.com"
    fingerprint256 := "FP3"
    publicKey := "PK3"
    validFrom := 5000
    validTo := 10000 }

/-- The CA certificate of the trust anchor. -/
def demoCaCert : X509Cert :=
  { subject := "CN=ca"
    fingerprint256 := "FPCA"
    publicKey := "CAPK"
    validFrom := 0
    validTo := 4102444800000 }

/-- A PEM string containing exactly one certificate block. -/
def demoPem : String := "-----BEGIN CERTIFICATE-----AAA-----END CERTIFICATE-----"

/-- Environment in which every check succeeds and the submitted PEM parses
to `demoCert`. -/
def demoEnv : CryptoEnv :=
  { parseX509 := fun s => if s = "CA" then .ok demoCaCert else .ok demoCert
    certVerify := fun _ _ => true
    sigVerify := fun _ _ _ => true
    readCa := .ok "CA" }

/-- Environment in which the submitted PEM parses to `demoCertB` and the CA
signature check fails on every certificate. -/
def envUntrustedB : CryptoEnv :=
  { parseX509 := fun s => if s = "CA" then .ok demoCaCert else .ok demoCertB
    certVerify := fun _ _ => false
    sigVerify := fun _ _ _ => true
    readCa := .ok "CA" }

/-- Environment in which the submitted PEM parses to `demoCertLate` and every
other check succeeds. -/
def envLate : CryptoEnv :=
  { parseX509 := fun s => if s = "CA" then .ok demoCaCert else .ok demoCertLate
    certVerify := fun _ _ => true
    sigVerify := fun _ _ _ => true
    readCa := .ok "CA" }

/-- Environment in which everything succeeds except the signature check. -/
def envSigFail : CryptoEnv :=
  { parseX509 := fun s => if s = "CA" then .ok demoCaCert else .ok demoCert
    certVerify := fun _ _ => true
    sigVerify := fun _ _ _ => false
    readCa := .ok "CA" }

/-- A live challenge bound to the fingerprint of `demoCert`. -/
def demoChallenge : Challenge :=
  { challenge := "nonce1", certFingerprint := "FP1", createdAt := 0, expiresAt := 60000 }

/-- Challenge store holding the one live challenge under id cid1. -/
def demoStore : Store Challenge := Store.empty.set "cid1" demoChallenge

/-- Challenge store holding an already expired challenge under id cid2. -/
def demoStoreExpired : Store Challenge :=
  Store.empty.set "cid2"
    { challenge := "nonce2", certFingerprint := "FP1", createdAt := 0, expiresAt := 10 }

/-- Two live sessions for the same key fingerprint. -/
def demoSessionA : Session :=
  { id := "sidA", keyFingerprint := "FP1", username := some "alice@example.com"
    createdAt := 0, expiresAt := 86400000 }

/-- Second live session for the same key fingerprint as `demoSessionA`. -/
def demoSessionB : Session :=
  { id := "sidB", keyFingerprint := "FP1", username := some "alice@example.com"
    createdAt := 0, expiresAt := 86400000 }

/-- Session store holding the two live sessions. -/
def demoSessions : Store Session :=
  (Store.empty.set "sidA" demoSessionA).set "sidB" demoSessionB

/-- Session store holding one expired session under id sidE. -/
def demoSessionsExpired : Store Session :=
  Store.empty.set "sidE"
    { id := "sidE", keyFingerprint := "FP1", username := none
      createdAt := 0, expiresAt := 10 }

/-! Helper lemmas shared by the claim theorems. -/

theorem Store.delete_self {α : Type} (m : Store α) (k : String) :
    m.delete k k = none := by
  simp [Store.delete]

theorem Store.delete_ne {α : Type} (m : Store α) (k k2 : String) (h : k2 ≠ k) :
    m.delete k k2 = m k2 := by
  simp [Store.delete, h]

/-- A missing challenge id makes `verifySignature` report the not-found
outcome and leave the store alone. -/
theorem verifySignature_none (env : CryptoEnv) (now : Nat) (cid sig pem : String)
    (st : Store Challenge) (h : st cid = none) :
    verifySignature env now cid sig pem st =
      ({ valid := false, error := some "Challenge not found or expired" }, st) := by
  unfold verifySignature
  rw [h]

/-- A successful `verifySignature` run deletes the challenge id from the
store. -/
theorem verifySignature_valid_delete (env : CryptoEnv) (now : Nat)
    (cid sig pem : String) (st : Store Challenge)
    (h : (verifySignature env now cid sig pem st).1.valid = true) :
    (verifySignature env now cid sig pem st).2 = Store.delete st cid := by
  revert h
  unfold verifySignature
  repeat' split
  all_goals intro h
  all_goals try (first | rfl | simp_all)
  all_goals (split at h <;> simp_all)

/-- For a live challenge, every outcome of `verifySignature` either succeeds
and deletes the challenge, or fails and leaves the store untouched. -/
theorem verifySignature_store_behavior (env : CryptoEnv) (now : Nat)
    (cid sig pem : String) (st : Store Challenge) (ch : Challenge)
    (hc : st cid = some ch) (he : ¬ now > ch.expiresAt) :
    ((verifySignature env now cid sig pem st).1.valid = true ∧
       (verifySignature env now cid sig pem st).2 = Store.delete st cid) ∨
    ((verifySignature env now cid sig pem st).1.valid = false ∧
       (verifySignature env now cid sig pem st).2 = st) := by
  unfold verifySignature
  simp only [hc]
  rw [if_neg he]
  repeat' split
  all_goals simp_all

/-! Claim theorems. -/

/-- C1: after one `verifySignature` call that returns a valid result for a
given challengeId, any second attempt with the same challengeId yields the
ChallengeNotFound outcome (error text Challenge not found or expired),
because the success path deletes the challenge record from the store. -/
theorem challenge_single_use (env env2 : CryptoEnv) (now now2 : Nat)
    (cid sig sig2 pem pem2 : String) (st : Store Challenge)
    (h : (verifySignature env now cid sig pem st).1.valid = true) :
    (verifySignature env2 now2 cid sig2 pem2
        (verifySignature env now cid sig pem st).2).1 =
      { valid := false, error := some "Challenge not found or expired" } := by
  rw [verifySignature_valid_delete env now cid sig pem st h]
  rw [verifySignature_none env2 now2 cid sig2 pem2 _ (Store.delete_self st cid)]

/-- Witness for C1 at a concrete successful run. -/
theorem challenge_single_use_witness :
    (verifySignature demoEnv 0 "cid1" "sig" demoPem demoStore).1.valid = true ∧
    (verifySignature demoEnv 5 "cid1" "sig2" demoPem
        (verifySignature demoEnv 0 "cid1" "sig" demoPem demoStore).2).1 =
      { valid := false, error := some "Challenge not found or expired" } :=
  ⟨by decide,
   challenge_single_use demoEnv demoEnv 0 5 "cid1" "sig" "sig2" demoPem demoPem
     demoStore (by decide)⟩

/-- C2: for every live stored challenge and every submitted certificate
whose fingerprint differs from the bound fingerprint, `verifySignature`
returns the Certificate mismatch rejection and leaves the store unchanged,
regardless of whether the submitted signature is cryptographically valid
(the signature oracle and the signature text are unconstrained). -/
theorem fingerprint_mismatch_rejected (env : CryptoEnv) (now : Nat)
    (cid sig pem cc : String) (st : Store Challenge) (ch : Challenge)
    (cert : X509Cert)
    (hc : st cid = some ch) (he : ¬ now > ch.expiresAt)
    (hp : parseCertFromPem pem = some cc) (hx : env.parseX509 cc = .ok cert)
    (hf : cert.fingerprint256 ≠ ch.certFingerprint) :
    verifySignature env now cid sig pem st =
      ({ valid := false, error := some "Certificate mismatch" }, st) := by
  unfold verifySignature
  simp only [hc, hp, hx]
  rw [if_neg he, if_pos hf]

/-- Witness for C2: a valid signature over the nonce with the wrong
certificate. -/
theorem fingerprint_mismatch_rejected_witness :
    demoCertB.fingerprint256 ≠ demoChallenge.certFingerprint ∧
    verifySignature envUntrustedB 0 "cid1" "sig" demoPem demoStore =
      ({ valid := false, error := some "Certificate mismatch" }, demoStore) :=
  ⟨by decide,
   fingerprint_mismatch_rejected envUntrustedB 0 "cid1" "sig" demoPem demoPem
     demoStore demoChallenge demoCertB (by decide) (by decide) (by decide)
     (by decide) (by decide)⟩

/-- C3: an entry whose expiresAt lies strictly in the past at lookup time is
treated as absent by the lookup that discovers it, with no sweep needed, and
is removed by that lookup: the challenge fetch of `verifySignature` reports
Challenge expired and deletes the record, and `getSession` returns none and
deletes the record. -/
theorem expired_entry_absent_on_lookup (env : CryptoEnv) (now : Nat)
    (cid sig pem sid : String) (cst : Store Challenge) (sst : Store Session)
    (ch : Challenge) (s : Session)
    (hc : cst cid = some ch) (hce : now > ch.expiresAt)
    (hs : sst sid = some s) (hse : now > s.expiresAt) :
    (verifySignature env now cid sig pem cst).1 =
      { valid := false, error := some "Challenge expired" } ∧
    (verifySignature env now cid sig pem cst).2 cid = none ∧
    (getSession now sid sst).1 = none ∧
    (getSession now sid sst).2 sid = none := by
  unfold verifySignature getSession
  simp only [hc, hs]
  rw [if_pos hce, if_pos hse]
  exact ⟨rfl, Store.delete_self cst cid, rfl, Store.delete_self sst sid⟩

/-- Witness for C3 at a concrete expired challenge and session. -/
theorem expired_entry_absent_on_lookup_witness :
    (verifySignature demoEnv 100 "cid2" "sig" demoPem demoStoreExpired).1 =
      { valid := false, error := some "Challenge expired" } ∧
    (verifySignature demoEnv 100 "cid2" "sig" demoPem demoStoreExpired).2 "cid2" = none ∧
    (getSession 100 "sidE" demoSessionsExpired).1 = none ∧
    (getSession 100 "sidE" demoSessionsExpired).2 "sidE" = none :=
  expired_entry_absent_on_lookup demoEnv 100 "cid2" "sig" demoPem "sidE"
    demoStoreExpired demoSessionsExpired
    { challenge := "nonce2", certFingerprint := "FP1", createdAt := 0, expiresAt := 10 }
    { id := "sidE", keyFingerprint := "FP1", username := none, createdAt := 0, expiresAt := 10 }
    (by decide) (by decide) (by decide) (by decide)

/-- C7: for a live challenge, a `verifySignature` call that fails (in
particular one that reaches the signature check and fails it) leaves the
challenge store unchanged with the challenge still present, so a retry with
the same challengeId inside the TTL is still possible; the record is deleted
exactly on the success path. -/
theorem failed_signature_leaves_challenge (env : CryptoEnv) (now : Nat)
    (cid sig pem : String) (st : Store Challenge) (ch : Challenge)
    (hc : st cid = some ch) (he : ¬ now > ch.expiresAt) :
    ((verifySignature env now cid sig pem st).1.valid = false →
       (verifySignature env now cid sig pem st).2 = st ∧
       (verifySignature env now cid sig pem st).2 cid = some ch) ∧
    ((verifySignature env now cid sig pem st).1.valid = true →
       (verifySignature env now cid sig pem st).2 cid = none) := by
  rcases verifySignature_store_behavior env now cid sig pem st ch hc he with
    ⟨hv, hst⟩ | ⟨hv, hst⟩
  · refine ⟨fun hfail => absurd hv (by simp [hfail]), fun _ => ?_⟩
    rw [hst]
    exact Store.delete_self st cid
  · exact ⟨fun _ => ⟨hst, by rw [hst]; exact hc⟩,
      fun hvalid => absurd hv (by simp [hvalid])⟩

/-- Witness for C7 at a concrete failing signature check. -/
theorem failed_signature_leaves_challenge_witness :
    (verifySignature envSigFail 0 "cid1" "sig" demoPem demoStore).1 =
      { valid := false, error := some "Invalid signature" } ∧
    (((verifySignature envSigFail 0 "cid1" "sig" demoPem demoStore).1.valid = false →
        (verifySignature envSigFail 0 "cid1" "sig" demoPem demoStore).2 = demoStore ∧
        (verifySignature envSigFail 0 "cid1" "sig" demoPem demoStore).2 "cid1" =
          some demoChallenge) ∧
     ((verifySignature envSigFail 0 "cid1" "sig" demoPem demoStore).1.valid = true →
        (verifySignature envSigFail 0 "cid1" "sig" demoPem demoStore).2 "cid1" = none)) :=
  ⟨by decide,
   failed_signature_leaves_challenge envSigFail 0 "cid1" "sig" demoPem demoStore
     demoChallenge (by decide) (by decide)⟩

/-- C9: deleting one session removes exactly that entry: the revoked id is
gone, every other key of the store is untouched, and an unexpired session
under a different id (in particular one with the same fingerprint) is still
returned by `getSession`. -/
theorem revoke_session_independence (now : Nat) (sid sid2 : String)
    (sst : Store Session) (s : Session)
    (hne : sid2 ≠ sid) (hs : sst sid2 = some s) (he : ¬ now > s.expiresAt) :
    deleteSession sid sst sid = none ∧
    deleteSession sid sst sid2 = sst sid2 ∧
    (getSession now sid2 (deleteSession sid sst)).1 = some s := by
  refine ⟨Store.delete_self sst sid, Store.delete_ne sst sid sid2 hne, ?_⟩
  unfold getSession deleteSession
  rw [Store.delete_ne sst sid sid2 hne]
  simp only [hs]
  rw [if_neg he]

/-- Witness for C9: two live sessions with the same fingerprint, one
revoked. -/
theorem revoke_session_independence_witness :
    deleteSession "sidA" demoSessions "sidA" = none ∧
    deleteSession "sidA" demoSessions "sidB" = demoSessions "sidB" ∧
    (getSession 50 "sidB" (deleteSession "sidA" demoSessions)).1 = some demoSessionB :=
  revoke_session_independence 50 "sidA" "sidB" demoSessions demoSessionB
    (by decide) (by decide) (by decide)

/-- C10: every failing `createChallenge` run leaves the challenge store
unchanged; a challenge record is inserted only on the success path, after
all verification checks have passed. -/
theorem createChallenge_failure_frame (env : CryptoEnv) (now : Nat)
    (fid fn pem : String) (st : Store Challenge)
    (h : (createChallenge env now fid fn pem st).1.valid = false) :
    (createChallenge env now fid fn pem st).2 = st := by
  revert h
  unfold createChallenge
  repeat' split
  all_goals intro h
  all_goals first | rfl | simp_all

/-- Witness for C10 at a PEM without a certificate block. -/
theorem createChallenge_failure_frame_witness :
    (createChallenge demoEnv 0 "cidN" "nonceN" "junk" demoStore).1.valid = false ∧
    (createChallenge demoEnv 0 "cidN" "nonceN" "junk" demoStore).2 = demoStore :=
  ⟨by decide,
   createChallenge_failure_frame demoEnv 0 "cidN" "nonceN" "junk" demoStore (by decide)⟩

/-- C4 counterexample: `createChallenge` accepts a CA-signed certificate
whose notBefore bound still lies in the future, so the temporal check does
not test the lower end of the validity window as the claim states. -/
theorem temporal_check_lower_bound_cex :
    1000 < demoCertLate.validFrom ∧
    (createChallenge envLate 1000 "cidX" "nonceX" demoPem
        (Store.empty : Store Challenge)).1.valid = true := by
  constructor
  · decide
  · decide

/-- C4 amended: the temporal check of `createChallenge` compares the current
time only against the notAfter bound: past it the run is rejected with
Certificate has expired and the store is untouched; otherwise (even before
notBefore) the run succeeds. -/
theorem createChallenge_temporal_upper_bound_only (env : CryptoEnv) (now : Nat)
    (fid fn pem cc caPem : String) (st : Store Challenge) (cert caCert : X509Cert)
    (hp : parseCertFromPem pem = some cc) (hx : env.parseX509 cc = .ok cert)
    (hca : env.readCa = .ok caPem) (hcax : env.parseX509 caPem = .ok caCert)
    (hv : env.certVerify cert caCert.publicKey = true) :
    (now > cert.validTo →
       createChallenge env now fid fn pem st =
         ({ valid := false, error := some "Certificate has expired" }, st)) ∧
    (¬ now > cert.validTo → (createChallenge env now fid fn pem st).1.valid = true) := by
  unfold createChallenge
  simp only [hp, hx, hca, hcax, hv, Bool.not_true]
  constructor
  · intro ht
    simp only [if_pos ht]
    rfl
  · intro ht
    simp only [if_neg ht]
    rfl

/-- Witness for the amended C4 past the notAfter bound. -/
theorem createChallenge_temporal_upper_bound_only_witness :
    (20000 > demoCertLate.validTo →
       createChallenge envLate 20000 "cidX" "nonceX" demoPem demoStore =
         ({ valid := false, error := some "Certificate has expired" }, demoStore)) ∧
    (¬ 20000 > demoCertLate.validTo →
       (createChallenge envLate 20000 "cidX" "nonceX" demoPem demoStore).1.valid = true) :=
  createChallenge_temporal_upper_bound_only envLate 20000 "cidX" "nonceX" demoPem
    demoPem "CA" demoStore demoCertLate demoCaCert (by decide) (by decide)
    (by decide) (by decide) (by decide)

/-- C5 counterexample: a submitted certificate that is both untrusted (the
CA check fails on it) and fingerprint-mismatched is rejected with
Certificate mismatch, not with the certificate re-validation error, so the
fingerprint check runs before the CA re-check. -/
theorem check_order_cex :
    envUntrustedB.certVerify demoCertB demoCaCert.publicKey = false ∧
    demoCertB.fingerprint256 ≠ demoChallenge.certFingerprint ∧
    (verifySignature envUntrustedB 0 "cid1" "sig" demoPem demoStore).1 =
      { valid := false, error := some "Certificate mismatch" } := by
  refine ⟨by decide, by decide, by decide⟩

/-- C5 amended: at login completion the checks run in the order challenge
lookup, lazy expiry, certificate parse, fingerprint equality, CA
re-validation (signature only, with no temporal re-check), signature
verification; hence a fingerprint mismatch is reported as Certificate
mismatch even for an untrusted certificate, and the CA rejection is only
reported when the fingerprints agree. -/
theorem verifySignature_fingerprint_before_ca (env : CryptoEnv) (now : Nat)
    (cid sig pem cc caPem : String) (st : Store Challenge) (ch : Challenge)
    (cert caCert : X509Cert)
    (hc : st cid = some ch) (he : ¬ now > ch.expiresAt)
    (hp : parseCertFromPem pem = some cc) (hx : env.parseX509 cc = .ok cert) :
    (cert.fingerprint256 ≠ ch.certFingerprint →
       verifySignature env now cid sig pem st =
         ({ valid := false, error := some "Certificate mismatch" }, st)) ∧
    (cert.fingerprint256 = ch.certFingerprint →
       env.readCa = .ok caPem → env.parseX509 caPem = .ok caCert →
       env.certVerify cert caCert.publicKey = false →
       verifySignature env now cid sig pem st =
         ({ valid := false, error := some "Certificate not signed by CA" }, st)) := by
  unfold verifySignature
  simp only [hc, hp, hx]
  rw [if_neg he]
  constructor
  · intro hf
    rw [if_pos hf]
  · intro hf hca hcax hv
    rw [if_neg (not_not_intro hf)]
    simp only [hca, hcax, hv, Bool.not_false]
    rfl

/-- Witness for the amended C5: both the mismatch branch and the agreeing
fingerprint with failing CA check. -/
theorem verifySignature_fingerprint_before_ca_witness :
    (demoCertB.fingerprint256 ≠ demoChallenge.certFingerprint →
       verifySignature envUntrustedB 0 "cid1" "sig" demoPem demoStore =
         ({ valid := false, error := some "Certificate mismatch" }, demoStore)) ∧
    (demoCertB.fingerprint256 = demoChallenge.certFingerprint →
       envUntrustedB.readCa = .ok "CA" →
       envUntrustedB.parseX509 "CA" = .ok demoCaCert →
       envUntrustedB.certVerify demoCertB demoCaCert.publicKey = false →
       verifySignature envUntrustedB 0 "cid1" "sig" demoPem demoStore =
         ({ valid := false, error := some "Certificate not signed by CA" }, demoStore)) :=
  verifySignature_fingerprint_before_ca envUntrustedB 0 "cid1" "sig" demoPem demoPem
    "CA" demoStore demoChallenge demoCertB demoCaCert (by decide) (by decide)
    (by decide) (by decide)

/-- C6 counterexample: a signature that is not well-formed base64 text is
decoded leniently and, failing verification, yields the ordinary Invalid
signature outcome instead of a distinct InvalidSignatureEncoding failure (no
such error exists in the middleware). -/
theorem lenient_base64_cex :
    isWellFormedBase64 "!!!!" = false ∧
    (verifySignature envSigFail 0 "cid1" "!!!!" demoPem demoStore).1 =
      { valid := false, error := some "Invalid signature" } := by
  refine ⟨by decide, by decide⟩

/-- C6 amended: the base64 signature text is decoded by the total, lenient
`Buffer.from` decoder (which never fails, also on malformed input), and a
signature failing verification after that decoding yields the ordinary
Invalid signature outcome, for well-formed and malformed text alike. -/
theorem malformed_base64_decoded_leniently (env : CryptoEnv) (now : Nat)
    (cid sig pem cc caPem : String) (st : Store Challenge) (ch : Challenge)
    (cert caCert : X509Cert)
    (hc : st cid = some ch) (he : ¬ now > ch.expiresAt)
    (hp : parseCertFromPem pem = some cc) (hx : env.parseX509 cc = .ok cert)
    (hf : cert.fingerprint256 = ch.certFingerprint)
    (hca : env.readCa = .ok caPem) (hcax : env.parseX509 caPem = .ok caCert)
    (hv : env.certVerify cert caCert.publicKey = true)
    (hs : env.sigVerify cert.publicKey ch.challenge (base64DecodeLenient sig) = false) :
    verifySignature env now cid sig pem st =
      ({ valid := false, error := some "Invalid signature" }, st) := by
  unfold verifySignature
  simp only [hc, hp, hx, hca, hcax, hv, Bool.not_true]
  rw [if_neg he, if_neg (not_not_intro hf)]
  simp only [hs, Bool.not_false]
  rfl

/-- Witness for the amended C6 at malformed base64 input. -/
theorem malformed_base64_decoded_leniently_witness :
    isWellFormedBase64 "!!!!" = false ∧
    verifySignature envSigFail 0 "cid1" "!!!!" demoPem demoStore =
      ({ valid := false, error := some "Invalid signature" }, demoStore) :=
  ⟨by decide,
   malformed_base64_decoded_leniently envSigFail 0 "cid1" "!!!!" demoPem demoPem
     "CA" demoStore demoChallenge demoCert demoCaCert (by decide) (by decide)
     (by decide) (by decide) (by decide) (by decide) (by decide) (by decide)
     (by decide)⟩

/-- C8: a certificate whose signature does not verify against the configured
CA public key is rejected by `createChallenge` with Certificate not signed
by CA (store untouched), is never accepted by `verifySignature`, and the
login-completion step therefore never issues a session for it. -/
theorem untrusted_cert_never_authenticated (env : CryptoEnv)
    (pem cc caPem : String) (cert caCert : X509Cert)
    (hp : parseCertFromPem pem = some cc) (hx : env.parseX509 cc = .ok cert)
    (hca : env.readCa = .ok caPem) (hcax : env.parseX509 caPem = .ok caCert)
    (hv : env.certVerify cert caCert.publicKey = false) :
    (∀ (now : Nat) (fid fn : String) (st : Store Challenge),
       createChallenge env now fid fn pem st =
         ({ valid := false, error := some "Certificate not signed by CA" }, st)) ∧
    (∀ (now : Nat) (cid sig : String) (cst : Store Challenge),
       (verifySignature env now cid sig pem cst).1.valid = false) ∧
    (∀ (now : Nat) (fsid cid sig : String) (cst : Store Challenge) (sst : Store Session),
       (loginStep env now fsid cid sig pem cst sst).2.2 = sst) := by
  have hver : ∀ (now : Nat) (cid sig : String) (cst : Store Challenge),
      (verifySignature env now cid sig pem cst).1.valid = false := by
    intro now cid sig cst
    unfold verifySignature
    simp only [hp, hx, hca, hcax, hv, Bool.not_false]
    repeat' split
    all_goals simp_all
  refine ⟨?_, hver, ?_⟩
  · intro now fid fn st
    unfold createChallenge
    simp only [hp, hx, hca, hcax, hv, Bool.not_false]
    rfl
  · intro now fsid cid sig cst sst
    unfold loginStep
    simp [hver now cid sig cst]

/-- Witness for C8 at a concrete untrusted certificate. -/
theorem untrusted_cert_never_authenticated_witness :
    (∀ (now : Nat) (fid fn : String) (st : Store Challenge),
       createChallenge envUntrustedB now fid fn demoPem st =
         ({ valid := false, error := some "Certificate not signed by CA" }, st)) ∧
    (∀ (now : Nat) (cid sig : String) (cst : Store Challenge),
       (verifySignature envUntrustedB now cid sig demoPem cst).1.valid = false) ∧
    (∀ (now : Nat) (fsid cid sig : String) (cst : Store Challenge) (sst : Store Session),
       (loginStep envUntrustedB now fsid cid sig demoPem cst sst).2.2 = sst) :=
  untrusted_cert_never_authenticated envUntrustedB demoPem demoPem "CA" demoCertB
    demoCaCert (by decide) (by decide) (by decide) (by decide) (by decide)

end Natsable
